import Mathlib

/-!
Verification of the CMF calculator (ATran31/cmf-calculator).

Shallow embedding of the rule-matching, reduction and aggregation code.
Python floats are modelled as rationals, pandas data frames as lists of
records, and raised exceptions as `Option`/`Except` error values.
-/

/-- One row of the input coefficient table (spreadsheet columns
Segment, Start_MP, End_MP, Severity, Crash_Type, Direction, Time,
Coefficient). -/
structure CMFRule where
  Segment : String
  Start_MP : ℚ
  End_MP : ℚ
  Severity : String
  Crash_Type : String
  Direction : String
  Time : String
  Coefficient : ℚ
deriving DecidableEq, Repr

/-- Model of the Python `str.lower()` method (ASCII lowercasing of every
character), written over the character list so that it evaluates by kernel
reduction. -/
def py_lower (s : String) : String := ⟨s.data.map Char.toLower⟩

namespace Study_Area

/-- Embedding of `Study_Area.get_crash_cmfs` (src/studies.py).
The pandas query keeps rows with `Start_MP <= m and m < End_MP`, and
`cmf_stack = results.iloc[0:len(results), 6]` selects the seventh column,
which under the documented column layout (Segment, Start_MP, End_MP,
Severity, Crash_Type, Direction, Time, Coefficient) is the Time column,
not Coefficient. The row loop then evaluates `results[row]` with an
integer `row`; indexing a DataFrame with a scalar is a column-label
lookup, and the columns of this table are strings, so the first loop
iteration raises `KeyError` whenever `results` is nonempty, before any
filter comparison or append runs. The function therefore returns
normally only when the milepost query selects no rule, and then returns
the empty coefficient list; the raise is modelled as `none`. -/
def get_crash_cmfs (input_cmfs : List CMFRule) (crash_milepost : ℚ)
    (severity crash_type crash_dir crash_time : String) : Option (List ℚ) :=
  let results := input_cmfs.filter fun r =>
    decide (r.Start_MP ≤ crash_milepost) && decide (crash_milepost < r.End_MP)
  let _cmf_stack := results.map CMFRule.Time
  match results with
  | [] => some []
  | _ :: _ => none

/-- Embedding of `Study_Area.reduce_cmfs` (src/studies.py):
`functools.reduce(lambda a, b: a * b, cmfs)` with no initial value.
On an empty list `functools.reduce` raises `TypeError`; the raise is
modelled as `none`. -/
def reduce_cmfs : List ℚ → Option ℚ
  | [] => none
  | c :: rest => some (rest.foldl (fun a b => a * b) c)

end Study_Area

/-- Matcher written from the words of the specification (for comparison
with `Study_Area.get_crash_cmfs`): a rule in milepost range is kept if,
independently for each of the four dimensions, the rule value is the
case-insensitive literal "all" or equals the crash value
case-insensitively. -/
def spec_get_crash_cmfs (input_cmfs : List CMFRule) (crash_milepost : ℚ)
    (severity crash_type crash_dir crash_time : String) : List ℚ :=
  ((input_cmfs.filter fun r =>
      decide (r.Start_MP ≤ crash_milepost) && decide (crash_milepost < r.End_MP)).filter
    fun r =>
      (py_lower r.Severity == "all" || py_lower r.Severity == py_lower severity)
      && (py_lower r.Crash_Type == "all" || py_lower r.Crash_Type == py_lower crash_type)
      && (py_lower r.Direction == "all" || py_lower r.Direction == py_lower crash_dir)
      && (py_lower r.Time == "all" || py_lower r.Time == py_lower crash_time)).map
    CMFRule.Coefficient

namespace CrashProcessor

/-- One normalized crash record (src/crash_processor.py), restricted to the
fields the aggregation functions read. -/
structure Crash where
  report_type : String
  crash_dir : String
  year : ℤ
  calculated_cmf : ℚ
  collision_type_code : ℤ
  collision_type_desc : String
  fix_obj_code : ℤ
  harm_event_code1 : ℤ
  harm_event_code2 : ℤ
deriving DecidableEq, Repr

/-- Python substring containment `needle in hay`. -/
def str_in (needle hay : String) : Bool := decide (needle.data <:+: hay.data)

/-- Model of `pandas.Series.unique`: distinct values in order of first
appearance. -/
def series_unique (l : List String) : List String :=
  l.foldl (fun acc x => if x ∈ acc then acc else acc ++ [x]) []

/-- Lexicographic comparison of character lists, the order used by the
in-place ascending `ndarray.sort`. -/
def chars_le : List Char → List Char → Bool
  | [], _ => true
  | _ :: _, [] => false
  | x :: xs, y :: ys => if x = y then chars_le xs ys else decide (x < y)

/-- Lexicographic string comparison. -/
def str_le (a b : String) : Bool := chars_le a.data b.data

/-- Insertion into an ascending list. -/
def insert_asc (x : String) : List String → List String
  | [] => [x]
  | y :: ys => if str_le x y then x :: y :: ys else y :: insert_asc x ys

/-- Model of the in-place ascending `ndarray.sort` (insertion sort:
a stable sort producing the ascending reordering). -/
def sort_asc (l : List String) : List String := l.foldr insert_asc []

/-- Embedding of `get_crash_directions` (src/crash_processor.py): distinct
`crash_dir` values, sorted, with `"NoData"` and `"U"` filtered out. -/
def get_crash_directions (crashes_df : List Crash) : List String :=
  let unique_crash_dirs := series_unique (crashes_df.map Crash.crash_dir)
  let sorted_dirs := sort_asc unique_crash_dirs
  sorted_dirs.filter fun x => !(x == "NoData" || x == "U")

/-- Embedding of `count_fatal_crashes` (src/crash_processor.py): one pass
updating three counters (all years, given year, given year and direction),
then selecting a counter from the presence of the optional arguments. -/
def count_fatal_crashes (crashes_df : List Crash) (year : Option ℤ)
    (crash_dir : Option String) : ℕ :=
  let counts := crashes_df.foldl
    (fun (acc : ℕ × ℕ × ℕ) crash =>
      if str_in "fatal" (py_lower crash.report_type) then
        (acc.1 + 1,
         (if year == some crash.year then acc.2.1 + 1 else acc.2.1),
         (if year == some crash.year && crash_dir == some crash.crash_dir then
            acc.2.2 + 1 else acc.2.2))
      else acc)
    (0, 0, 0)
  match year, crash_dir with
  | some _, some _ => counts.2.2
  | some _, none => counts.2.1
  | _, _ => counts.1

/-- Embedding of `count_injuries` (src/crash_processor.py). -/
def count_injuries (crashes_df : List Crash) (year : Option ℤ)
    (crash_dir : Option String) : ℕ :=
  let counts := crashes_df.foldl
    (fun (acc : ℕ × ℕ × ℕ) crash =>
      if str_in "injury" (py_lower crash.report_type) then
        (acc.1 + 1,
         (if year == some crash.year then acc.2.1 + 1 else acc.2.1),
         (if year == some crash.year && crash_dir == some crash.crash_dir then
            acc.2.2 + 1 else acc.2.2))
      else acc)
    (0, 0, 0)
  match year, crash_dir with
  | some _, some _ => counts.2.2
  | some _, none => counts.2.1
  | _, _ => counts.1

/-- Embedding of `count_rear_end` (src/crash_processor.py): the crash is a
rear-end crash when `collision_type_code in [3, 4, 5]`. -/
def count_rear_end (crashes_df : List Crash) (year : Option ℤ)
    (crash_dir : Option String) : ℕ :=
  let counts := crashes_df.foldl
    (fun (acc : ℕ × ℕ × ℕ) crash =>
      if decide (crash.collision_type_code ∈ [3, 4, 5]) then
        (acc.1 + 1,
         (if year == some crash.year then acc.2.1 + 1 else acc.2.1),
         (if year == some crash.year && crash_dir == some crash.crash_dir then
            acc.2.2 + 1 else acc.2.2))
      else acc)
    (0, 0, 0)
  match year, crash_dir with
  | some _, some _ => counts.2.2
  | some _, none => counts.2.1
  | _, _ => counts.1

/-- Embedding of `count_parked` (src/crash_processor.py): the tally tests
`harm_event_code1 == 2 or harm_event_code2 == 2` (the code 1 is not
tested here, unlike in `calculate_parked_reduction`). -/
def count_parked (crashes_df : List Crash) (year : Option ℤ)
    (crash_dir : Option String) : ℕ :=
  let counts := crashes_df.foldl
    (fun (acc : ℕ × ℕ × ℕ) crash =>
      if crash.harm_event_code1 == 2 || crash.harm_event_code2 == 2 then
        (acc.1 + 1,
         (if year == some crash.year then acc.2.1 + 1 else acc.2.1),
         (if year == some crash.year && crash_dir == some crash.crash_dir then
            acc.2.2 + 1 else acc.2.2))
      else acc)
    (0, 0, 0)
  match year, crash_dir with
  | some _, some _ => counts.2.2
  | some _, none => counts.2.1
  | _, _ => counts.1

/-- The five-field result dictionary produced by every `calculate_*_reduction`
function, with its fixed row labels turned into field names. -/
structure ReductionResult where
  number_of_accidents : ℕ
  cmf : ℚ
  crf : ℚ
  expected_change : ℚ
  annual_net : ℚ
deriving DecidableEq, Repr

/-- The all-zero result written by the empty-cohort branch. -/
def ReductionResult.zero : ReductionResult :=
  { number_of_accidents := 0, cmf := 0, crf := 0, expected_change := 0, annual_net := 0 }

/-- Model of `pandas.Series.max` as used on the nonempty `year` column
(the guarded branches never apply it to an empty cohort). -/
def series_max : List ℤ → ℤ
  | [] => 0
  | h :: t => t.foldl max h

/-- Model of `pandas.Series.min` as used on the nonempty `year` column. -/
def series_min : List ℤ → ℤ
  | [] => 0
  | h :: t => t.foldl min h

/-- The `crash_data` selection of `calculate_fatal_reduction`: rows with
`report_type == "Fatal Crash"`, further restricted by `crash_dir` when a
direction is given (pandas mask alignment makes the chained indexing an
intersection of the two conditions). -/
def fatal_selection (crashes_df : List Crash) (direction : Option String) :
    List Crash :=
  match direction with
  | none => crashes_df.filter fun c => c.report_type == "Fatal Crash"
  | some d =>
    (crashes_df.filter fun c => c.report_type == "Fatal Crash").filter
      fun c => c.crash_dir == d

/-- The `crash_data` selection of `calculate_collision_type_reduction`:
rows with `collision_type_desc == collision_type`. -/
def collision_type_selection (crashes_df : List Crash) (collision_type : String)
    (direction : Option String) : List Crash :=
  match direction with
  | none => crashes_df.filter fun c => c.collision_type_desc == collision_type
  | some d =>
    (crashes_df.filter fun c => c.collision_type_desc == collision_type).filter
      fun c => c.crash_dir == d

/-- The `crash_data` selection of `calculate_parked_reduction`:
`harm_event_code1.isin([1, 2]) | harm_event_code2.isin([1, 2])`. -/
def parked_selection (crashes_df : List Crash) (direction : Option String) :
    List Crash :=
  match direction with
  | none =>
    crashes_df.filter fun c =>
      (c.harm_event_code1 == 1 || c.harm_event_code1 == 2)
      || (c.harm_event_code2 == 1 || c.harm_event_code2 == 2)
  | some d =>
    (crashes_df.filter fun c =>
      (c.harm_event_code1 == 1 || c.harm_event_code1 == 2)
      || (c.harm_event_code2 == 1 || c.harm_event_code2 == 2)).filter
      fun c => c.crash_dir == d

/-- The `crash_data` selection of `calculate_fixed_object_reduction`:
rows with `fix_obj_code > 0`. -/
def fixed_object_selection (crashes_df : List Crash) (direction : Option String) :
    List Crash :=
  match direction with
  | none => crashes_df.filter fun c => decide (0 < c.fix_obj_code)
  | some d =>
    (crashes_df.filter fun c => decide (0 < c.fix_obj_code)).filter
      fun c => c.crash_dir == d

/-- The statistics block shared by the nonempty branch of every
`calculate_*_reduction` function (src/crash_processor.py lines 528-549 and
its copies): count, mean CMF, CRF, expected change and annual net
reduction of the selected rows. -/
def reduction_stats (crash_data : List Crash) : ReductionResult :=
  let cmf_total := (crash_data.map Crash.calculated_cmf).sum / (crash_data.length : ℚ)
  { number_of_accidents := crash_data.length
    cmf := cmf_total
    crf := (1 - cmf_total) * 100
    expected_change := cmf_total - 1
    annual_net := (1 - cmf_total) * (crash_data.length : ℚ)
      / ((1 + series_max (crash_data.map Crash.year)
            - series_min (crash_data.map Crash.year) : ℤ) : ℚ) }

/-- Embedding of `calculate_fatal_reduction` (src/crash_processor.py). -/
def calculate_fatal_reduction (crashes_df : List Crash)
    (direction : Option String) : ReductionResult :=
  let crash_data := fatal_selection crashes_df direction
  if crash_data.isEmpty then ReductionResult.zero else reduction_stats crash_data

/-- Embedding of `calculate_collision_type_reduction` (src/crash_processor.py). -/
def calculate_collision_type_reduction (crashes_df : List Crash)
    (collision_type : String) (direction : Option String) : ReductionResult :=
  let crash_data := collision_type_selection crashes_df collision_type direction
  if crash_data.isEmpty then ReductionResult.zero else reduction_stats crash_data

/-- Embedding of `calculate_parked_reduction` (src/crash_processor.py). -/
def calculate_parked_reduction (crashes_df : List Crash)
    (direction : Option String) : ReductionResult :=
  let crash_data := parked_selection crashes_df direction
  if crash_data.isEmpty then ReductionResult.zero else reduction_stats crash_data

/-- Embedding of `calculate_fixed_object_reduction` (src/crash_processor.py). -/
def calculate_fixed_object_reduction (crashes_df : List Crash)
    (direction : Option String) : ReductionResult :=
  let crash_data := fixed_object_selection crashes_df direction
  if crash_data.isEmpty then ReductionResult.zero else reduction_stats crash_data

/-- Python exceptions that can escape `fetch_crash_reports`: an HTTP error
raised by `requests.Response.raise_for_status`, or a conversion error
raised while normalizing a record. -/
inductive PyError where
  | httpError (status : ℕ)
  | valueError
deriving DecidableEq, Repr

/-- An HTTP response: status code and decoded JSON body. -/
structure HttpResponse (α : Type) where
  status : ℕ
  body : List α

/-- Model of `requests.Response.raise_for_status`: it raises `HTTPError`
exactly for 4xx and 5xx status codes and does nothing otherwise. -/
def raise_for_status (status : ℕ) : Except PyError Unit :=
  if 400 ≤ status ∧ status < 600 then Except.error (PyError.httpError status)
  else Except.ok ()

/-- Embedding of `fetch_crash_reports` (src/crash_processor.py). The
per-record normalization loop (missing-value fill, report-type and
direction inference through further API calls, int and float conversion,
time and date formatting) is abstracted as the `normalize` parameter; an
exception raised inside the loop propagates, so the loop is `mapM`. On a
200 response the normalized records are returned; otherwise the function
calls `raise_for_status` and, when that does not raise, falls off the end
of the function returning Python `None`, modelled as `Except.ok none`. -/
def fetch_crash_reports {α β : Type} (normalize : α → Except PyError β)
    (r : HttpResponse α) : Except PyError (Option (List β)) :=
  if r.status = 200 then (r.body.mapM normalize).map some
  else (raise_for_status r.status).map fun _ => none

end CrashProcessor

/-- Concrete cohort for witness instances: three fatal crashes of year 2019. -/
def fatal_cohort_sample : List CrashProcessor.Crash :=
  [{ report_type := "Fatal Crash", crash_dir := "N", year := 2019,
     calculated_cmf := 2, collision_type_code := 3,
     collision_type_desc := "Same Direction Rear End", fix_obj_code := 0,
     harm_event_code1 := 0, harm_event_code2 := 0 },
   { report_type := "Fatal Crash", crash_dir := "S", year := 2019,
     calculated_cmf := 3, collision_type_code := 6,
     collision_type_desc := "Opposite Direction Sideswipe", fix_obj_code := 0,
     harm_event_code1 := 0, harm_event_code2 := 0 },
   { report_type := "Fatal Crash", crash_dir := "N", year := 2019,
     calculated_cmf := 4, collision_type_code := 12,
     collision_type_desc := "Same Movement Angle", fix_obj_code := 1,
     harm_event_code1 := 0, harm_event_code2 := 0 }]

/-- Concrete crash whose first harm-event code is 1 (struck parked vehicle
family) and whose second is 0. -/
def harm_code_one_crash : CrashProcessor.Crash :=
  { report_type := "Property Damage Crash", crash_dir := "N", year := 2020,
    calculated_cmf := 1, collision_type_code := 0,
    collision_type_desc := "Unknown", fix_obj_code := 0,
    harm_event_code1 := 1, harm_event_code2 := 0 }

/-- Concrete crash with no harm events and no fixed object. -/
def no_harm_crash : CrashProcessor.Crash :=
  { report_type := "Injury Crash", crash_dir := "S", year := 2020,
    calculated_cmf := 1, collision_type_code := 0,
    collision_type_desc := "Unknown", fix_obj_code := 0,
    harm_event_code1 := 0, harm_event_code2 := 0 }

/-- Concrete crash list with an unknown-direction record. -/
def direction_sample : List CrashProcessor.Crash :=
  [{ report_type := "Fatal Crash", crash_dir := "U", year := 2020,
     calculated_cmf := 1, collision_type_code := 0,
     collision_type_desc := "Unknown", fix_obj_code := 0,
     harm_event_code1 := 0, harm_event_code2 := 0 },
   { report_type := "Fatal Crash", crash_dir := "N", year := 2020,
     calculated_cmf := 1, collision_type_code := 0,
     collision_type_desc := "Unknown", fix_obj_code := 0,
     harm_event_code1 := 0, harm_event_code2 := 0 }]

section Helpers

/-- Folding multiplication from a head element computes the list product. -/
theorem foldl_mul_eq_prod (l : List ℚ) : ∀ a : ℚ,
    l.foldl (fun x y => x * y) a = a * l.prod := by
  induction l with
  | nil => intro a; simp
  | cons b t ih =>
    intro a
    simp [List.foldl_cons, ih, List.prod_cons, mul_assoc]

end Helpers

/-- C1: the claim says `Study_Area.reduce_cmfs` returns 1.0 on an empty
coefficient sequence. The source calls `functools.reduce` with no initial
value, which raises `TypeError` on an empty sequence (modelled as `none`),
so a crash whose milepost lies outside every rule range makes the program
fail instead of getting `calculated_cmf == 1.0`. -/
theorem reduce_cmfs_empty_fails : Study_Area.reduce_cmfs [] = none := rfl

/-- C4: on every nonempty coefficient list the reducer returns the product
of all elements; in particular it is the identity on singletons and the
two-element product on pairs. -/
theorem reduce_cmfs_nonempty_prod :
    (∀ l : List ℚ, l ≠ [] → Study_Area.reduce_cmfs l = some l.prod)
    ∧ (∀ c : ℚ, Study_Area.reduce_cmfs [c] = some c)
    ∧ (∀ a b : ℚ, Study_Area.reduce_cmfs [a, b] = some (a * b)) := by
  refine ⟨?_, ?_, ?_⟩
  · intro l hl
    match l with
    | c :: rest =>
      simp [Study_Area.reduce_cmfs, foldl_mul_eq_prod, List.prod_cons]
  · intro c
    simp [Study_Area.reduce_cmfs]
  · intro a b
    simp [Study_Area.reduce_cmfs]

/-- C4 witness: the reducer evaluated on the concrete nonempty list [2, 3]. -/
theorem reduce_cmfs_nonempty_prod_witness :
    ([(2 : ℚ), 3] ≠ [] ∧ Study_Area.reduce_cmfs [(2 : ℚ), 3] = some (List.prod [(2 : ℚ), 3]))
    ∧ Study_Area.reduce_cmfs [(5 : ℚ)] = some 5 :=
  ⟨⟨List.cons_ne_nil _ _,
    reduce_cmfs_nonempty_prod.1 [(2 : ℚ), 3] (List.cons_ne_nil _ _)⟩,
   reduce_cmfs_nonempty_prod.2.1 5⟩

/-- C2: the claim describes the intended rule matching (conjunctive,
case-insensitive filters, coefficients of all matching rules collected),
shown here through the matcher written from its words; the code instead
raises `KeyError` as soon as the milepost query selects any rule. With
one fully wildcarded rule covering [0, 5) and a crash at milepost 3, the
claimed matcher returns the coefficient list [2] while `get_crash_cmfs`
fails (`none` models the `KeyError` raise), so the code never keeps any
rule. -/
theorem get_crash_cmfs_match_raises_keyerror :
    Study_Area.get_crash_cmfs
      [{ Segment := "A", Start_MP := 0, End_MP := 5, Severity := "all",
         Crash_Type := "all", Direction := "all", Time := "all",
         Coefficient := 2 }] 3 "all" "all" "all" "all" = none
    ∧ spec_get_crash_cmfs
      [{ Segment := "A", Start_MP := 0, End_MP := 5, Severity := "all",
         Crash_Type := "all", Direction := "all", Time := "all",
         Coefficient := 2 }] 3 "all" "all" "all" "all" = [2] :=
  ⟨by decide, by decide⟩

/-- C3: the half-open test does govern the milepost query: a rule whose
End_MP equals the crash milepost is never selected (the query comes back
empty and the function returns the empty coefficient list, as for a rule
starting past the milepost); but whenever the query selects an in-range
rule the function raises `KeyError` (`none`) instead of returning that
rule coefficient, so the code never returns a coefficient from any rule
at all. -/
theorem get_crash_cmfs_half_open_eval :
    Study_Area.get_crash_cmfs
      [{ Segment := "A", Start_MP := 0, End_MP := 3, Severity := "all",
         Crash_Type := "all", Direction := "all", Time := "all",
         Coefficient := 2 }] 3 "all" "all" "all" "all" = some []
    ∧ Study_Area.get_crash_cmfs
      [{ Segment := "A", Start_MP := 4, End_MP := 9, Severity := "all",
         Crash_Type := "all", Direction := "all", Time := "all",
         Coefficient := 2 }] 3 "all" "all" "all" "all" = some []
    ∧ Study_Area.get_crash_cmfs
      [{ Segment := "A", Start_MP := 0, End_MP := 5, Severity := "all",
         Crash_Type := "all", Direction := "all", Time := "all",
         Coefficient := 2 }] 3 "all" "all" "all" "all" = none :=
  ⟨by decide, by decide, by decide⟩

namespace CrashProcessor

/-- The first component of the three-counter fold used by every `count_*`
function equals the starting value plus the number of elements passing the
outer test, whatever the two inner tests are. -/
theorem foldl_triple_fst {α : Type} (p q r : α → Bool) :
    ∀ (l : List α) (t : ℕ × ℕ × ℕ),
      (l.foldl (fun acc c =>
        if p c then
          (acc.1 + 1, (if q c then acc.2.1 + 1 else acc.2.1),
           (if r c then acc.2.2 + 1 else acc.2.2))
        else acc) t).1 = t.1 + l.countP p := by
  intro l
  induction l with
  | nil => intro t; simp
  | cons x xs ih =>
    intro t
    by_cases hx : p x
    · simp only [List.foldl_cons, hx, if_true, List.countP_cons, hx, ih]
      omega
    · simp only [List.foldl_cons, hx, if_false, List.countP_cons, ih]
      simp [hx]

/-- Folding `max` over a constant list is the identity. -/
theorem foldl_max_const (y : ℤ) :
    ∀ l : List ℤ, (∀ x ∈ l, x = y) → l.foldl max y = y := by
  intro l
  induction l with
  | nil => intro _; rfl
  | cons a t ih =>
    intro h
    have ha : a = y := h a (by simp)
    rw [List.foldl_cons, ha, max_self]
    exact ih fun x hx => h x (by simp [hx])

/-- Folding `min` over a constant list is the identity. -/
theorem foldl_min_const (y : ℤ) :
    ∀ l : List ℤ, (∀ x ∈ l, x = y) → l.foldl min y = y := by
  intro l
  induction l with
  | nil => intro _; rfl
  | cons a t ih =>
    intro h
    have ha : a = y := h a (by simp)
    rw [List.foldl_cons, ha, min_self]
    exact ih fun x hx => h x (by simp [hx])

/-- The maximum of a nonempty constant column is the constant. -/
theorem series_max_of_const (l : List ℤ) (y : ℤ) (hne : l ≠ [])
    (h : ∀ x ∈ l, x = y) : series_max l = y := by
  match l with
  | a :: t =>
    have ha : a = y := h a (by simp)
    simp only [series_max]
    rw [ha]
    exact foldl_max_const y t fun x hx => h x (by simp [hx])

/-- The minimum of a nonempty constant column is the constant. -/
theorem series_min_of_const (l : List ℤ) (y : ℤ) (hne : l ≠ [])
    (h : ∀ x ∈ l, x = y) : series_min l = y := by
  match l with
  | a :: t =>
    have ha : a = y := h a (by simp)
    simp only [series_min]
    rw [ha]
    exact foldl_min_const y t fun x hx => h x (by simp [hx])

end CrashProcessor

open CrashProcessor in
/-- C5: on a nonempty fatal cohort of N crashes with mean CMF v, the result
has count N, CMF v, CRF (1 - v) * 100, expected change v - 1, and annual
net reduction (1 - v) * N / (1 + max year - min year); when every crash of
the cohort shares one year the divisor is 1. -/
theorem calculate_fatal_reduction_formulas
    (crashes_df : List Crash) (direction : Option String) (N : ℕ) (v : ℚ)
    (hne : fatal_selection crashes_df direction ≠ [])
    (hN : N = (fatal_selection crashes_df direction).length)
    (hv : v = ((fatal_selection crashes_df direction).map Crash.calculated_cmf).sum / (N : ℚ)) :
    (calculate_fatal_reduction crashes_df direction).number_of_accidents = N
    ∧ (calculate_fatal_reduction crashes_df direction).cmf = v
    ∧ (calculate_fatal_reduction crashes_df direction).crf = (1 - v) * 100
    ∧ (calculate_fatal_reduction crashes_df direction).expected_change = v - 1
    ∧ (calculate_fatal_reduction crashes_df direction).annual_net
        = (1 - v) * (N : ℚ)
          / ((1 + series_max ((fatal_selection crashes_df direction).map Crash.year)
                - series_min ((fatal_selection crashes_df direction).map Crash.year) : ℤ) : ℚ)
    ∧ ∀ y : ℤ, (∀ c ∈ fatal_selection crashes_df direction, c.year = y) →
        (calculate_fatal_reduction crashes_df direction).annual_net = (1 - v) * (N : ℚ) := by
  subst hN
  subst hv
  obtain ⟨a, l, hcd⟩ : ∃ a l, fatal_selection crashes_df direction = a :: l := by
    cases h : fatal_selection crashes_df direction with
    | nil => exact absurd h hne
    | cons a l => exact ⟨a, l, rfl⟩
  refine ⟨?_, ?_, ?_, ?_, ?_, ?_⟩
  · simp [calculate_fatal_reduction, reduction_stats, hcd]
  · simp [calculate_fatal_reduction, reduction_stats, hcd]
  · simp [calculate_fatal_reduction, reduction_stats, hcd]
  · simp [calculate_fatal_reduction, reduction_stats, hcd]
  · simp [calculate_fatal_reduction, reduction_stats, hcd]
  · intro y hy
    rw [hcd] at hy
    have hall : ∀ x ∈ a.year :: List.map Crash.year l, x = y := by
      intro x hx
      rcases List.mem_cons.mp hx with h | h
      · subst h; exact hy a (by simp)
      · rcases List.mem_map.mp h with ⟨c, hc, rfl⟩
        exact hy c (by simp [hc])
    have hmax := series_max_of_const _ y (by simp) hall
    have hmin := series_min_of_const _ y (by simp) hall
    simp [calculate_fatal_reduction, reduction_stats, hcd, hmax, hmin]

/-- C5 witness: the fatal-cohort statistics evaluated on a concrete
three-crash single-year cohort. -/
theorem calculate_fatal_reduction_formulas_witness :
    (CrashProcessor.calculate_fatal_reduction fatal_cohort_sample none).number_of_accidents = 3
    ∧ (CrashProcessor.calculate_fatal_reduction fatal_cohort_sample none).cmf
        = ((CrashProcessor.fatal_selection fatal_cohort_sample none).map
            CrashProcessor.Crash.calculated_cmf).sum / ((3 : ℕ) : ℚ)
    ∧ (CrashProcessor.calculate_fatal_reduction fatal_cohort_sample none).annual_net
        = (1 - ((CrashProcessor.fatal_selection fatal_cohort_sample none).map
            CrashProcessor.Crash.calculated_cmf).sum / ((3 : ℕ) : ℚ)) * ((3 : ℕ) : ℚ) := by
  have h := calculate_fatal_reduction_formulas fatal_cohort_sample none 3
    (((CrashProcessor.fatal_selection fatal_cohort_sample none).map
        CrashProcessor.Crash.calculated_cmf).sum / ((3 : ℕ) : ℚ))
    (by decide) (by decide) rfl
  exact ⟨h.1, h.2.1, h.2.2.2.2.2 2019 (by decide)⟩

open CrashProcessor in
/-- C6: for each of the four predicate-based cohort selections (severity,
collision type, harm event, fixed object), with or without a direction
restriction, an empty selection produces the all-zero ReductionResult. -/
theorem calculate_reduction_empty_cohort_zero :
    (∀ (crashes_df : List Crash) (dir : Option String),
        fatal_selection crashes_df dir = [] →
          calculate_fatal_reduction crashes_df dir = ReductionResult.zero)
    ∧ (∀ (crashes_df : List Crash) (ct : String) (dir : Option String),
        collision_type_selection crashes_df ct dir = [] →
          calculate_collision_type_reduction crashes_df ct dir = ReductionResult.zero)
    ∧ (∀ (crashes_df : List Crash) (dir : Option String),
        parked_selection crashes_df dir = [] →
          calculate_parked_reduction crashes_df dir = ReductionResult.zero)
    ∧ (∀ (crashes_df : List Crash) (dir : Option String),
        fixed_object_selection crashes_df dir = [] →
          calculate_fixed_object_reduction crashes_df dir = ReductionResult.zero) := by
  refine ⟨?_, ?_, ?_, ?_⟩
  · intro df dir h; simp [calculate_fatal_reduction, h]
  · intro df ct dir h; simp [calculate_collision_type_reduction, h]
  · intro df dir h; simp [calculate_parked_reduction, h]
  · intro df dir h; simp [calculate_fixed_object_reduction, h]

/-- C6 witness: concrete empty selections, including a nonempty frame with
no parked-cohort member. -/
theorem calculate_reduction_empty_cohort_zero_witness :
    CrashProcessor.calculate_fatal_reduction [] none = CrashProcessor.ReductionResult.zero
    ∧ CrashProcessor.calculate_collision_type_reduction [] "Head On" none
        = CrashProcessor.ReductionResult.zero
    ∧ CrashProcessor.calculate_parked_reduction [no_harm_crash] none
        = CrashProcessor.ReductionResult.zero
    ∧ CrashProcessor.calculate_fixed_object_reduction [no_harm_crash] (some "N")
        = CrashProcessor.ReductionResult.zero :=
  ⟨calculate_reduction_empty_cohort_zero.1 [] none rfl,
   calculate_reduction_empty_cohort_zero.2.1 [] "Head On" none rfl,
   calculate_reduction_empty_cohort_zero.2.2.1 [no_harm_crash] none (by decide),
   calculate_reduction_empty_cohort_zero.2.2.2 [no_harm_crash] (some "N") (by decide)⟩

/-- C7 counterexample: a crash with first harm-event code 1 is in the
cohort of `calculate_parked_reduction` but is not tallied by
`count_parked`, so the two functions do not use one membership predicate. -/
theorem parked_predicate_counterexample :
    harm_code_one_crash.harm_event_code1 = 1
    ∧ CrashProcessor.count_parked [harm_code_one_crash] none none = 0
    ∧ (CrashProcessor.calculate_parked_reduction
        [harm_code_one_crash] none).number_of_accidents = 1 :=
  ⟨rfl, by decide, by decide⟩

open CrashProcessor in
/-- C7 amended: `calculate_parked_reduction` selects crashes with a
harm-event code in 1 or 2, while `count_parked` tallies crashes with a
harm-event code equal to 2 only; the two predicates differ on crashes
whose only parked-family harm-event code is 1. -/
theorem parked_predicates_characterization :
    (∀ crashes_df : List Crash,
        count_parked crashes_df none none
          = crashes_df.countP fun c =>
              c.harm_event_code1 == 2 || c.harm_event_code2 == 2)
    ∧ (∀ (crashes_df : List Crash) (dir : Option String),
        (calculate_parked_reduction crashes_df dir).number_of_accidents
          = (parked_selection crashes_df dir).length)
    ∧ (∀ crashes_df : List Crash,
        parked_selection crashes_df none
          = crashes_df.filter fun c =>
              (c.harm_event_code1 == 1 || c.harm_event_code1 == 2)
              || (c.harm_event_code2 == 1 || c.harm_event_code2 == 2)) := by
  refine ⟨?_, ?_, ?_⟩
  · intro df
    exact (foldl_triple_fst _ _ _ df (0, 0, 0)).trans (Nat.zero_add _)
  · intro df dir
    cases h : parked_selection df dir with
    | nil => simp [calculate_parked_reduction, h, ReductionResult.zero]
    | cons a l => simp [calculate_parked_reduction, h, reduction_stats]
  · intro df
    rfl

open CrashProcessor in
/-- C8: the distinct-direction list built by `get_crash_directions` never
contains the unknown marker "U" nor the missing marker "NoData". -/
theorem get_crash_directions_excludes_unknown :
    ∀ crashes_df : List Crash,
      "U" ∉ get_crash_directions crashes_df
      ∧ "NoData" ∉ get_crash_directions crashes_df := by
  intro df
  constructor
  · intro h
    simp [get_crash_directions, List.mem_filter] at h
  · intro h
    simp [get_crash_directions, List.mem_filter] at h

/-- C8 witness: the exclusion applied to a concrete crash list containing
an unknown-direction record. -/
theorem get_crash_directions_excludes_unknown_witness :
    "U" ∉ CrashProcessor.get_crash_directions direction_sample
    ∧ "NoData" ∉ CrashProcessor.get_crash_directions direction_sample :=
  get_crash_directions_excludes_unknown direction_sample

open CrashProcessor in
/-- C10: in each of the embedded `count_*` functions, passing a direction
while leaving the year unset returns the unfiltered total count, silently
ignoring the direction argument. -/
theorem count_functions_ignore_direction_without_year :
    (∀ (crashes_df : List Crash) (d : String),
        count_fatal_crashes crashes_df none (some d)
          = count_fatal_crashes crashes_df none none)
    ∧ (∀ (crashes_df : List Crash) (d : String),
        count_injuries crashes_df none (some d)
          = count_injuries crashes_df none none)
    ∧ (∀ (crashes_df : List Crash) (d : String),
        count_rear_end crashes_df none (some d)
          = count_rear_end crashes_df none none)
    ∧ (∀ (crashes_df : List Crash) (d : String),
        count_parked crashes_df none (some d)
          = count_parked crashes_df none none) := by
  refine ⟨?_, ?_, ?_, ?_⟩ <;>
    intro df d <;>
    exact (foldl_triple_fst _ _ _ df (0, 0, 0)).trans
      (foldl_triple_fst _ _ _ df (0, 0, 0)).symm

/-- C9 counterexample: a 204 response is not a 200, yet the fetch neither
returns parsed records nor raises: `raise_for_status` only raises for 4xx
and 5xx codes, so the function falls through and returns Python None. -/
theorem fetch_claim_counterexample :
    ¬ (((204 : ℕ) = 200
          ∧ ∃ recs : List Unit,
              CrashProcessor.fetch_crash_reports (fun x : Unit => Except.ok x)
                { status := 204, body := [] } = Except.ok (some recs))
        ∨ ((204 : ℕ) ≠ 200
          ∧ ∃ e, CrashProcessor.fetch_crash_reports (fun x : Unit => Except.ok x)
                { status := 204, body := [] } = Except.error e)) := by
  have hval : CrashProcessor.fetch_crash_reports (fun x : Unit => Except.ok x)
      { status := 204, body := ([] : List Unit) } = Except.ok none := rfl
  rintro (⟨h, -⟩ | ⟨-, e, he⟩)
  · exact absurd h (by decide)
  · rw [hval] at he
    exact Except.noConfusion he

open CrashProcessor in
/-- C9 amended: on a 200 response the fetch returns the result of
normalizing every record (the first normalization error propagates); on a
4xx or 5xx response it raises the HTTP error; on any other non-200
response it returns Python None; on no non-200 response does it produce a
record list. -/
theorem fetch_crash_reports_behavior {α β : Type}
    (normalize : α → Except PyError β) (r : HttpResponse α) :
    (r.status = 200 →
        fetch_crash_reports normalize r = (r.body.mapM normalize).map some)
    ∧ (400 ≤ r.status → r.status < 600 →
        fetch_crash_reports normalize r
          = Except.error (PyError.httpError r.status))
    ∧ (r.status ≠ 200 → ∀ recs : List β,
        fetch_crash_reports normalize r ≠ Except.ok (some recs)) := by
  refine ⟨?_, ?_, ?_⟩
  · intro h
    simp [fetch_crash_reports, h]
  · intro h4 h6
    have hne : r.status ≠ 200 := by omega
    simp [fetch_crash_reports, hne, raise_for_status, h4, h6, Except.map]
  · intro hne recs
    by_cases h46 : 400 ≤ r.status ∧ r.status < 600 <;>
      simp [fetch_crash_reports, hne, raise_for_status, h46, Except.map]

/-- C9 witness: the three behaviors at concrete statuses 200, 404 and 204. -/
theorem fetch_crash_reports_behavior_witness :
    CrashProcessor.fetch_crash_reports (fun x : Unit => Except.ok x)
      { status := 200, body := [(), ()] } = Except.ok (some [(), ()])
    ∧ CrashProcessor.fetch_crash_reports (fun x : Unit => Except.ok x)
      { status := 404, body := [] }
        = Except.error (CrashProcessor.PyError.httpError 404)
    ∧ CrashProcessor.fetch_crash_reports (fun x : Unit => Except.ok x)
      { status := 204, body := [] } ≠ Except.ok (some []) := by
  refine ⟨?_, ?_, ?_⟩
  · exact ((fetch_crash_reports_behavior (fun x : Unit => Except.ok x)
      { status := 200, body := [(), ()] }).1 rfl).trans (by rfl)
  · exact (fetch_crash_reports_behavior (fun x : Unit => Except.ok x)
      { status := 404, body := [] }).2.1 (by decide) (by decide)
  · exact (fetch_crash_reports_behavior (fun x : Unit => Except.ok x)
      { status := 204, body := [] }).2.2 (by decide) []
